import Mathlib

/-!
Verification of the vikunja-mcp task tooling core.

This file gives a shallow embedding of the task mutation / validation /
filtering logic of the repository (src/tools/tasks and the relation
handler), together with theorems about the embedded definitions.
Pure TypeScript functions become Lean functions; workflows that issue
remote calls become functions that also return the list of remote calls
they would issue, with an environment record standing for the remote
service's responses.  Thrown MCPError values become `Except` errors.
-/

namespace Vikunja

/-- Error codes used by MCPError (src/types), restricted to the codes the
embedded operations actually raise. -/
inductive ErrorCode
  | validationError
  | apiError
  | notFound
  | notImplemented
  | internalError
deriving DecidableEq, Repr

/-- The structured `vikunjaError` detail record attached by
`rollbackTaskCreation` (src/tools/tasks/crud, TaskCreationService). -/
structure VikunjaErrorDetails where
  taskId : Option Int
  partiallyCreated : Bool
  labelsAdded : Bool
  assigneesAdded : Bool
  rollbackSucceeded : Bool
deriving DecidableEq, Repr

/-- MCPError: code, human-readable message, optional structured details. -/
structure MCPError where
  code : ErrorCode
  message : String
  details : Option VikunjaErrorDetails := none
deriving DecidableEq, Repr

/-- JavaScript truthiness of an optional number (`!x` is true for
`undefined` and for `0`). -/
def numTruthy : Option Int → Bool
  | none => false
  | some n => n != 0

/-- JavaScript truthiness of an optional string (`!s` is true for
`undefined` and for the empty string). -/
def strTruthy : Option String → Bool
  | none => false
  | some s => s != ""

/-- Modelled from the spec: `validateId` lives in `src/utils/validation`,
which is not included under src/; per spec section 4.1 it is a pure check
that fails with a ValidationError unless the value is an integer of at
least 1. -/
def validateId (n : Int) (fieldName : String) : Except MCPError Unit :=
  if 1 ≤ n then Except.ok ()
  else Except.error
    { code := ErrorCode.validationError
      message := fieldName ++ " must be a positive integer. Received: " ++ toString n }

/-! ## Date validation (src/tools/tasks/validation.ts, validateDateString) -/

/-- Numeric value of a decimal digit character. -/
def digitVal (c : Char) : Nat := c.toNat - 48

/-- Two-digit decimal number from two digit characters. -/
def twoDigits (a b : Char) : Nat := 10 * digitVal a + digitVal b

/-- The numeric components of a date string of the shape
`YYYY-MM-DDTHH:mm:ss.sssZ`. -/
structure DateParts where
  year : Nat
  month : Nat
  day : Nat
  hour : Nat
  minute : Nat
  second : Nat
  millis : Nat
deriving DecidableEq, Repr

/-- Structural parse of the exact pattern
`^\d\x7b4\x7d-\d\x7b2\x7d-\d\x7b2\x7dT\d\x7b2\x7d:\d\x7b2\x7d:\d\x7b2\x7d\.\d\x7b3\x7dZ$`
used by `validateDateString`: 24 characters, digits and literal
separators in fixed positions. Returns the parsed components when the
string matches, `none` otherwise. -/
def parseIsoMillis (s : String) : Option DateParts :=
  match s.data with
  | [y1, y2, y3, y4, sep1, mo1, mo2, sep2, d1, d2, tc, h1, h2, c1, mi1, mi2, c2, s1, s2, dotc, f1, f2, f3, zc] =>
    if ([y1, y2, y3, y4, mo1, mo2, d1, d2, h1, h2, mi1, mi2, s1, s2, f1, f2, f3].all Char.isDigit
        && sep1 == '-' && sep2 == '-' && tc == 'T' && c1 == ':' && c2 == ':'
        && dotc == '.' && zc == 'Z') then
      some { year := 1000 * digitVal y1 + 100 * digitVal y2 + 10 * digitVal y3 + digitVal y4
             month := twoDigits mo1 mo2
             day := twoDigits d1 d2
             hour := twoDigits h1 h2
             minute := twoDigits mi1 mi2
             second := twoDigits s1 s2
             millis := 100 * digitVal f1 + 10 * digitVal f2 + digitVal f3 }
    else none
  | _ => none

/-- Whether a string matches the ISO-with-milliseconds regex of
`validateDateString`. -/
def matchesIsoMillisPattern (s : String) : Bool := (parseIsoMillis s).isSome

/-- Gregorian leap-year rule. -/
def isLeapYear (y : Nat) : Bool := (y % 4 == 0 && y % 100 != 0) || (y % 400 == 0)

/-- Number of days in a month of a given year. -/
def daysInMonth (y m : Nat) : Nat :=
  if m == 2 then (if isLeapYear y then 29 else 28)
  else if m == 4 || m == 6 || m == 9 || m == 11 then 30
  else 31

/-- Validity of the parsed components as a calendar date/time, following
the ECMA-262 Date Time String Format that the JavaScript `new Date(s)`
call applies to strings of this shape: month 1..12, day within the month,
time below 24:00 (with 24:00:00.000 itself also admitted). -/
def ecmaDatePartsValid (p : DateParts) : Bool :=
  1 ≤ p.month && p.month ≤ 12 && 1 ≤ p.day && p.day ≤ daysInMonth p.year p.month
  && ((p.hour ≤ 23 && p.minute ≤ 59 && p.second ≤ 59)
      || (p.hour == 24 && p.minute == 0 && p.second == 0 && p.millis == 0))

/-- Embedding of the second check of `validateDateString`: the platform
call `new Date(date)` produces a valid time value.  For strings that have
already matched the regex this is the ECMA-262 Date Time String Format
validity of the components. -/
def jsDateTimeValid (s : String) : Bool :=
  match parseIsoMillis s with
  | some p => ecmaDatePartsValid p
  | none => false

/-- validateDateString (src/tools/tasks/validation.ts): regex check, then
calendar validity via the platform date parser; each failure is a
ValidationError with the source's message. -/
def validateDateString (date : String) (fieldName : String) : Except MCPError Unit :=
  if !(matchesIsoMillisPattern date) then
    Except.error
      { code := ErrorCode.validationError
        message := fieldName ++ " must be in ISO 8601 format with milliseconds: YYYY-MM-DDTHH:mm:ss.sssZ. Example: 2025-10-30T04:05:22.422Z. Received: " ++ date }
  else if !(jsDateTimeValid date) then
    Except.error
      { code := ErrorCode.validationError
        message := fieldName ++ " must be a valid date. Received: " ++ date }
  else Except.ok ()

/-! ## Repeat-policy conversion (src/tools/tasks/validation.ts) -/

/-- The user-facing repeat unit accepted by the tools. -/
inductive RepeatModeArg
  | day
  | week
  | month
  | year
deriving DecidableEq, Repr

/-- The remote representation: seconds plus a numeric mode flag
(0 = use the interval, 1 = monthly, 2 = from current date). -/
structure RepeatConfig where
  repeat_after : Option Nat := none
  repeat_mode : Option Nat := none
deriving DecidableEq, Repr

/-- convertRepeatConfiguration (src/tools/tasks/validation.ts): month maps
to mode flag 1 (interval kept only for consistency at 30 days per month);
other units map to mode flag 0 with the interval converted to seconds. -/
def convertRepeatConfiguration (repeatAfter : Option Nat) (repeatMode : Option RepeatModeArg) :
    RepeatConfig :=
  if repeatMode = some RepeatModeArg.month then
    { repeat_mode := some 1
      repeat_after := repeatAfter.map (fun n => n * 30 * 24 * 60 * 60) }
  else
    match repeatAfter with
    | some n =>
      { repeat_mode := some 0
        repeat_after := some (match repeatMode with
          | some RepeatModeArg.day => n * 24 * 60 * 60
          | some RepeatModeArg.week => n * 7 * 24 * 60 * 60
          | some RepeatModeArg.year => n * 365 * 24 * 60 * 60
          | _ => n) }
    | none => {}

/-! ## Diff Engine (src/tools/tasks/crud/TaskUpdateService.ts, updateTaskAssignees) -/

/-- The assignees to add: `newAssigneeIds.filter(id => !currentAssigneeIds.includes(id))`. -/
def toAdd (currentAssigneeIds newAssigneeIds : List Int) : List Int :=
  newAssigneeIds.filter (fun id => !(decide (id ∈ currentAssigneeIds)))

/-- The assignees to remove: `currentAssigneeIds.filter(id => !newAssigneeIds.includes(id))`. -/
def toRemove (currentAssigneeIds newAssigneeIds : List Int) : List Int :=
  currentAssigneeIds.filter (fun id => !(decide (id ∈ newAssigneeIds)))

/-- Effect of one `removeUserFromTask` call on the assignee set. -/
def removeAssignee (s : List Int) (userId : Int) : List Int :=
  s.filter (fun x => x != userId)

/-- The sequence of assignee states produced by the update workflow:
the starting set, the set after the single bulk addition of `toAdd`, and
the set after each single removal (removals are applied one at a time, in
order, after all additions). -/
def assigneeStates (current desired : List Int) : List (List Int) :=
  current :: List.scanl removeAssignee (current ++ toAdd current desired) (toRemove current desired)

/-! ## Task data model -/

/-- The slice of the node-vikunja `Task` record used by these workflows.
The remote service owns the values; absent fields are `none`.
`repeat_mode` is the numeric wire representation. -/
structure TaskRec where
  id : Option Int := none
  title : Option String := none
  description : Option String := none
  due_date : Option String := none
  priority : Option Int := none
  done : Option Bool := none
  repeat_after : Option Nat := none
  repeat_mode : Option Nat := none
  assignees : Option (List Int) := none
deriving DecidableEq, Repr

/-- One remote call issued by a workflow, with enough arguments to state
which entity it touches. -/
inductive RemoteCall
  | getTask (taskId : Int)
  | updateTask (taskId : Int) (payload : TaskRec)
  | updateTaskLabels (taskId : Int) (labelIds : List Int)
  | bulkAssignUsersToTask (taskId : Int) (userIds : List Int)
  | removeUserFromTask (taskId : Int) (userId : Int)
  | deleteTask (taskId : Int)
  | createTask (projectId : Int)
  | createTaskRelation (taskId otherTaskId : Int) (kind : String)
  | deleteTaskRelation (taskId : Int) (kind : String) (otherTaskId : Int)
  | getTasksFiltered (filter : String)
  | getTasksAll
deriving DecidableEq, Repr

/-! ## Update workflow (src/tools/tasks/crud/TaskUpdateService.ts) -/

/-- Argument record of the update subcommand. -/
structure UpdateTaskArgs where
  id : Option Int := none
  title : Option String := none
  description : Option String := none
  dueDate : Option String := none
  priority : Option Int := none
  done : Option Bool := none
  labels : Option (List Int) := none
  assignees : Option (List Int) := none
  repeatAfter : Option Nat := none
  repeatMode : Option RepeatModeArg := none
deriving DecidableEq, Repr

/-- The previousState record captured by analyzeUpdateState (the current
values of the scalar fields, copied when defined). -/
structure PreviousState where
  title : Option String := none
  description : Option String := none
  due_date : Option String := none
  priority : Option Int := none
  done : Option Bool := none
  repeat_after : Option Nat := none
  repeat_mode : Option Nat := none
deriving DecidableEq, Repr

/-- Result of analyzeUpdateState. -/
structure UpdateState where
  currentTask : TaskRec
  previousState : PreviousState
  affectedFields : List String
deriving DecidableEq, Repr

/-- The affectedFields computation of analyzeUpdateState: a scalar field
is pushed when it is present in the request and strictly differs from the
fetched value; `repeatMode` compares the request's unit name against the
numeric `repeat_mode` of the fetched task, so under strict inequality it
differs whenever present; `labels` and `assignees` are pushed whenever
present, without any comparison. -/
def affectedFieldsOf (ct : TaskRec) (args : UpdateTaskArgs) : List String :=
  (if args.title ≠ none ∧ args.title ≠ ct.title then ["title"] else [])
  ++ (if args.description ≠ none ∧ args.description ≠ ct.description then ["description"] else [])
  ++ (if args.dueDate ≠ none ∧ args.dueDate ≠ ct.due_date then ["dueDate"] else [])
  ++ (if args.priority ≠ none ∧ args.priority ≠ ct.priority then ["priority"] else [])
  ++ (if args.done ≠ none ∧ args.done ≠ ct.done then ["done"] else [])
  ++ (if args.repeatAfter ≠ none ∧ args.repeatAfter ≠ ct.repeat_after then ["repeatAfter"] else [])
  ++ (if args.repeatMode ≠ none then ["repeatMode"] else [])
  ++ (if args.labels ≠ none then ["labels"] else [])
  ++ (if args.assignees ≠ none then ["assignees"] else [])

/-- analyzeUpdateState: record the previous scalar values and the list of
affected fields computed from the fetched current task. -/
def analyzeUpdateState (currentTask : TaskRec) (args : UpdateTaskArgs) : UpdateState :=
  { currentTask := currentTask
    previousState :=
      { title := currentTask.title
        description := currentTask.description
        due_date := currentTask.due_date
        priority := currentTask.priority
        done := currentTask.done
        repeat_after := currentTask.repeat_after
        repeat_mode := currentTask.repeat_mode }
    affectedFields := affectedFieldsOf currentTask args }

/-- buildUpdateData: merge the fetched task with the explicitly provided
fields so omitted fields are preserved, with the repeat configuration
translated when either repeat field is present. -/
def buildUpdateData (ct : TaskRec) (args : UpdateTaskArgs) : TaskRec :=
  let base : TaskRec :=
    { ct with
      title := if args.title ≠ none then args.title else ct.title
      description := if args.description ≠ none then args.description else ct.description
      due_date := if args.dueDate ≠ none then args.dueDate else ct.due_date
      priority := if args.priority ≠ none then args.priority else ct.priority
      done := if args.done ≠ none then args.done else ct.done }
  if args.repeatAfter ≠ none ∨ args.repeatMode ≠ none then
    let rc := convertRepeatConfiguration
      (if args.repeatAfter ≠ none then args.repeatAfter else ct.repeat_after) args.repeatMode
    { base with
      repeat_after := if rc.repeat_after ≠ none then rc.repeat_after else base.repeat_after
      repeat_mode := if rc.repeat_mode ≠ none then rc.repeat_mode else base.repeat_mode }
  else base

/-- The id-required message thrown by updateTask. -/
def idRequiredForUpdateMsg : String :=
  "Task ID is required for update operation. Please provide the \"id\" parameter with a valid task ID number. Example: \x7b \"subcommand\": \"update\", \"id\": 123, \"title\": \"Updated title\" \x7d"

/-- The message redirecting label changes to the apply-label subcommand. -/
def applyLabelRedirectMsg (id : Int) : String :=
  "To add or remove labels from a task, use the \"apply-label\" subcommand instead of \"update\". Example: \x7b \"subcommand\": \"apply-label\", \"id\": " ++ toString id ++ ", \"labels\": [1, 2, 3] \x7d. For removing labels, use \"remove-label\" subcommand."

/-- The synchronous validation prefix of updateTask, in source order:
id truthiness, validateId, dueDate format when the field is truthy, then
the rejection of a labels field. Returns the validated task id. -/
def updateTaskValidate (args : UpdateTaskArgs) : Except MCPError Int :=
  if !(numTruthy args.id) then
    Except.error { code := ErrorCode.validationError, message := idRequiredForUpdateMsg }
  else
    match validateId (args.id.getD 0) "id" with
    | Except.error e => Except.error e
    | Except.ok _ =>
      let afterDate : Except MCPError Int :=
        if args.labels ≠ none then
          Except.error { code := ErrorCode.validationError
                         message := applyLabelRedirectMsg (args.id.getD 0) }
        else Except.ok (args.id.getD 0)
      match args.dueDate with
      | some d =>
        if d ≠ "" then
          match validateDateString d "dueDate" with
          | Except.error e => Except.error e
          | Except.ok _ => afterDate
        else afterDate
      | none => afterDate

/-- The remote calls issued by updateTaskAssignees on its success path:
fetch the current assignees, one bulk add when there is anything to add,
then one removal call per assignee to remove. -/
def updateTaskAssigneesCalls (taskId : Int) (currentAssignees newAssigneeIds : List Int) :
    List RemoteCall :=
  let tAdd := toAdd currentAssignees newAssigneeIds
  let tRem := toRemove currentAssignees newAssigneeIds
  [RemoteCall.getTask taskId]
  ++ (if tAdd ≠ [] then [RemoteCall.bulkAssignUsersToTask taskId tAdd] else [])
  ++ tRem.map (fun userId => RemoteCall.removeUserFromTask taskId userId)

/-- Remote responses consumed by the update workflow (success path):
the task returned by the fetches, and the authoritative task returned by
the final re-fetch. -/
structure UpdateEnv where
  currentTask : TaskRec := {}
  finalTask : TaskRec := {}
deriving DecidableEq, Repr

/-- Response of a successful update. -/
structure UpdateResult where
  message : String
  task : TaskRec
  affectedFields : List String
  taskId : Int
deriving DecidableEq, Repr

/-- updateTask: validation prefix, then fetch, payload build, remote
update, assignee reconciliation when requested, and a final authoritative
re-fetch.  The first component is the list of remote calls issued (remote
calls are assumed to succeed; failure classification lives in
src/utils/error-handler, outside the embedded sources).  The source also
guards a label-update step on `args.labels`, but that branch is
unreachable because the validation prefix rejects every request carrying
a labels field, so it is omitted here. -/
def updateTaskModel (args : UpdateTaskArgs) (env : UpdateEnv) :
    List RemoteCall × Except MCPError UpdateResult :=
  match updateTaskValidate args with
  | Except.error e => ([], Except.error e)
  | Except.ok taskId =>
    let st := analyzeUpdateState env.currentTask args
    let payload := buildUpdateData env.currentTask args
    let assigneeCalls :=
      match args.assignees with
      | some ids => updateTaskAssigneesCalls taskId (env.currentTask.assignees.getD []) ids
      | none => []
    ([RemoteCall.getTask taskId, RemoteCall.updateTask taskId payload]
       ++ assigneeCalls ++ [RemoteCall.getTask taskId],
     Except.ok
       { message := "Task updated successfully"
         task := env.finalTask
         affectedFields := st.affectedFields
         taskId := taskId })

/-! ## Create workflow rollback (src/tools/tasks/crud, TaskCreationService) -/

/-- The transient creation state tracked for rollback. -/
structure CreationState where
  createdTask : TaskRec
  labelsAdded : Bool
  assigneesAdded : Bool
deriving DecidableEq, Repr

/-- Outcomes of the remote calls of the secondary phase of task creation:
whether the label application (after its retries) succeeds, whether the
assignee application succeeds, the error messages carried when they fail,
and whether the compensating delete succeeds. -/
structure CreateSecondaryEnv where
  labelsOk : Bool := true
  labelsErrMsg : String := ""
  assigneesOk : Bool := true
  assigneesErrMsg : String := ""
  deleteOk : Bool := true
deriving DecidableEq, Repr

/-- The message built by rollbackTaskCreation around the original error. -/
def rollbackMessage (originalMsg : String) (rollbackSucceeded : Bool) : String :=
  "Failed to complete task creation: " ++ originalMsg ++ ". "
  ++ (if rollbackSucceeded then "Task was successfully rolled back."
      else "Task rollback also failed - manual cleanup may be required.")

/-- rollbackTaskCreation: when the created task has a (truthy) id, attempt
the compensating delete and record whether it succeeded; then raise a
single API error carrying the original failure message, the rollback
outcome, and which secondary steps had been applied. -/
def rollbackTaskCreation (creationState : CreationState) (deleteOk : Bool)
    (originalMsg : String) : List RemoteCall × MCPError :=
  if numTruthy creationState.createdTask.id then
    let tid := creationState.createdTask.id.getD 0
    let rollbackSucceeded := deleteOk
    ([RemoteCall.deleteTask tid],
     { code := ErrorCode.apiError
       message := rollbackMessage originalMsg rollbackSucceeded
       details := some
         { taskId := creationState.createdTask.id
           partiallyCreated := true
           labelsAdded := creationState.labelsAdded
           assigneesAdded := creationState.assigneesAdded
           rollbackSucceeded := rollbackSucceeded } })
  else
    ([],
     { code := ErrorCode.apiError
       message := rollbackMessage originalMsg false
       details := some
         { taskId := creationState.createdTask.id
           partiallyCreated := true
           labelsAdded := creationState.labelsAdded
           assigneesAdded := creationState.assigneesAdded
           rollbackSucceeded := false } })

/-- The secondary phase of createTask, entered after the base entity was
created remotely: apply labels (when provided and non-empty and the task
has an id), then assignees, tracking the creation state; on the first
failure run rollbackTaskCreation and surface its error. -/
def applySecondaryCalls (createdTask : TaskRec) (labels assignees : List Int)
    (env : CreateSecondaryEnv) : List RemoteCall × Except MCPError CreationState :=
  let cs0 : CreationState :=
    { createdTask := createdTask, labelsAdded := false, assigneesAdded := false }
  if labels ≠ [] ∧ numTruthy createdTask.id then
    let tid := createdTask.id.getD 0
    if env.labelsOk then
      let cs1 : CreationState := { cs0 with labelsAdded := true }
      if assignees ≠ [] then
        if env.assigneesOk then
          ([RemoteCall.updateTaskLabels tid labels, RemoteCall.bulkAssignUsersToTask tid assignees],
           Except.ok { cs1 with assigneesAdded := true })
        else
          let (rbCalls, e) := rollbackTaskCreation cs1 env.deleteOk env.assigneesErrMsg
          ([RemoteCall.updateTaskLabels tid labels, RemoteCall.bulkAssignUsersToTask tid assignees]
             ++ rbCalls, Except.error e)
      else
        ([RemoteCall.updateTaskLabels tid labels], Except.ok cs1)
    else
      let (rbCalls, e) := rollbackTaskCreation cs0 env.deleteOk env.labelsErrMsg
      ([RemoteCall.updateTaskLabels tid labels] ++ rbCalls, Except.error e)
  else if assignees ≠ [] ∧ numTruthy createdTask.id then
    let tid := createdTask.id.getD 0
    if env.assigneesOk then
      ([RemoteCall.bulkAssignUsersToTask tid assignees], Except.ok { cs0 with assigneesAdded := true })
    else
      let (rbCalls, e) := rollbackTaskCreation cs0 env.deleteOk env.assigneesErrMsg
      ([RemoteCall.bulkAssignUsersToTask tid assignees] ++ rbCalls, Except.error e)
  else
    ([], Except.ok cs0)

/-! ## Delete workflow (src/tools/tasks/crud/TaskDeletionService.ts) -/

/-- Argument record of the delete subcommand. -/
structure DeleteTaskArgs where
  id : Option Int := none
deriving DecidableEq, Repr

/-- Remote responses consumed by the delete workflow: the pre-deletion
fetch outcome (`none` means the fetch threw: task not found, inaccessible
or already deleted) and whether the delete call succeeds. -/
structure DeleteEnv where
  fetchedTask : Option TaskRec := none
  deleteOk : Bool := true
deriving DecidableEq, Repr

/-- The context gathered before deletion. -/
structure DeletionContext where
  taskToDelete : Option TaskRec
  retrievalSuccess : Bool
deriving DecidableEq, Repr

/-- gatherDeletionContext: try to fetch the task; on any failure proceed
with an empty context rather than aborting. -/
def gatherDeletionContext (taskId : Int) (env : DeleteEnv) :
    List RemoteCall × DeletionContext :=
  ([RemoteCall.getTask taskId],
   match env.fetchedTask with
   | some t => { taskToDelete := some t, retrievalSuccess := true }
   | none => { taskToDelete := none, retrievalSuccess := false })

/-- The id-required message thrown by deleteTask. -/
def deleteIdRequiredMsg : String :=
  "Task ID is required for delete operation. Please provide the \"id\" parameter with a valid task ID number. Example: \x7b \"subcommand\": \"delete\", \"id\": 123 \x7d"

/-- Response of a successful delete: the message, the payload (the fetched
task when available, otherwise the deleted id), and the metadata keys. -/
structure DeleteResult where
  message : String
  task : Option TaskRec
  deletedTaskId : Option Int
  taskId : Int
  taskTitle : Option String
deriving DecidableEq, Repr

/-- Modelled from the spec: `handleStatusCodeError` (src/utils/error-handler)
is not included under src/; per spec section 7 a remote failure is
classified once at the workflow boundary into a context-bearing error.
Only its distinctness from the pre-fetch path matters for the claims. -/
def handleStatusCodeErrorModel (operation : String) (taskId : Int) : MCPError :=
  { code := ErrorCode.notFound
    message := "Failed to " ++ operation ++ ": Task with ID " ++ toString taskId ++ " not found" }

/-- deleteTask: id validation, best-effort pre-fetch, unconditional delete
call, and a response keyed by the id (and by the title when the pre-fetch
returned one that is truthy). -/
def deleteTaskModel (args : DeleteTaskArgs) (env : DeleteEnv) :
    List RemoteCall × Except MCPError DeleteResult :=
  if !(numTruthy args.id) then
    ([], Except.error { code := ErrorCode.validationError, message := deleteIdRequiredMsg })
  else
    match validateId (args.id.getD 0) "id" with
    | Except.error e => ([], Except.error e)
    | Except.ok _ =>
      let taskId := args.id.getD 0
      let (fetchCalls, ctx) := gatherDeletionContext taskId env
      let calls := fetchCalls ++ [RemoteCall.deleteTask taskId]
      if env.deleteOk then
        (calls, Except.ok
          { message :=
              match ctx.taskToDelete with
              | some t => "Task \"" ++ t.title.getD "" ++ "\" deleted successfully"
              | none => "Task " ++ toString taskId ++ " deleted successfully"
            task := ctx.taskToDelete
            deletedTaskId := match ctx.taskToDelete with
              | some _ => none
              | none => some taskId
            taskId := taskId
            taskTitle :=
              match ctx.taskToDelete with
              | some t => if strTruthy t.title then t.title else none
              | none => none })
      else
        (calls, Except.error (handleStatusCodeErrorModel "delete task" taskId))

/-! ## Relation workflows (src/tools/tasks-relations.ts) -/

/-- RELATION_KIND_MAP: the closed relation-kind vocabulary, matching the
node-vikunja RelationKind enum; each accepted name maps to itself. -/
def RELATION_KIND_MAP : List (String × String) :=
  [("unknown", "unknown"), ("subtask", "subtask"), ("parenttask", "parenttask"),
   ("related", "related"), ("duplicateof", "duplicateof"), ("duplicates", "duplicates"),
   ("blocking", "blocking"), ("blocked", "blocked"), ("precedes", "precedes"),
   ("follows", "follows"), ("copiedfrom", "copiedfrom"), ("copiedto", "copiedto")]

/-- The indexing `RELATION_KIND_MAP[k]` of the source. -/
def lookupRelationKind (k : String) : Option String :=
  (RELATION_KIND_MAP.find? (fun p => p.1 == k)).map (fun p => p.2)

/-- The accepted relation-kind strings (the keys of the map). -/
def actualRelationKinds : List String := RELATION_KIND_MAP.map (fun p => p.1)

/-- The relation-kind vocabulary exactly as the claim states it; kept
separate so it can be compared against the vocabulary of the source. -/
def claimedRelationKinds : List String :=
  ["subtask", "parent", "related", "duplicate-of", "duplicates", "blocking",
   "blocked", "precedes", "follows", "copied-from", "copied-to", "unknown"]

/-- Argument record of the relation subcommands. -/
structure RelationArgs where
  subcommand : String := ""
  id : Option Int := none
  otherTaskId : Option Int := none
  relationKind : Option String := none
deriving DecidableEq, Repr

/-- Remote responses consumed by the relation workflows: the task returned
by the post-mutation re-fetch. -/
structure RelationEnv where
  taskAfter : TaskRec := {}
deriving DecidableEq, Repr

/-- Response of a successful relation operation. -/
structure RelationResult where
  success : Bool
  operation : String
  message : String
  task : TaskRec
deriving DecidableEq, Repr

/-- The id-required message of the relate branch. -/
def relateIdRequiredMsg : String :=
  "Task ID is required for relate operation. Please provide the \"id\" parameter with a valid task ID number. Example: \x7b \"subcommand\": \"relate\", \"id\": 123, \"otherTaskId\": 456, \"relationKind\": \"subtask\" \x7d"

/-- The otherTaskId-required message of the relate branch. -/
def relateOtherIdRequiredMsg : String :=
  "Other task ID is required for relate operation. Please provide the \"otherTaskId\" parameter with a valid task ID number. For subtasks: \"id\" is the parent task, \"otherTaskId\" is the subtask. Example: \x7b \"subcommand\": \"relate\", \"id\": 123, \"otherTaskId\": 456, \"relationKind\": \"subtask\" \x7d"

/-- The relationKind-required message of the relate branch. -/
def relateKindRequiredMsg : String :=
  "Relation kind is required for relate operation. Please provide the \"relationKind\" parameter. For creating subtasks, use \"subtask\". Example: \x7b \"subcommand\": \"relate\", \"id\": 123, \"otherTaskId\": 456, \"relationKind\": \"subtask\" \x7d"

/-- handleRelationSubcommands: validate both identifiers and the relation
kind against the closed vocabulary, issue the relation mutation, re-fetch
the owning task, and return it.  `id` is always the relation's owner and
`otherTaskId` the target. -/
def handleRelationSubcommands (args : RelationArgs) (env : RelationEnv) :
    List RemoteCall × Except MCPError RelationResult :=
  if args.subcommand = "relate" then
    if !(numTruthy args.id) then
      ([], Except.error { code := ErrorCode.validationError, message := relateIdRequiredMsg })
    else match validateId (args.id.getD 0) "Task ID" with
    | Except.error e => ([], Except.error e)
    | Except.ok _ =>
      if !(numTruthy args.otherTaskId) then
        ([], Except.error { code := ErrorCode.validationError, message := relateOtherIdRequiredMsg })
      else match validateId (args.otherTaskId.getD 0) "Other task ID" with
      | Except.error e => ([], Except.error e)
      | Except.ok _ =>
        if !(strTruthy args.relationKind) then
          ([], Except.error { code := ErrorCode.validationError, message := relateKindRequiredMsg })
        else match lookupRelationKind (args.relationKind.getD "") with
        | none =>
          ([], Except.error { code := ErrorCode.validationError
                              message := "Invalid relation kind: " ++ args.relationKind.getD "" })
        | some kind =>
          ([RemoteCall.createTaskRelation (args.id.getD 0) (args.otherTaskId.getD 0) kind,
            RemoteCall.getTask (args.id.getD 0)],
           Except.ok
             { success := true
               operation := "relate"
               message := "Successfully created " ++ args.relationKind.getD ""
                 ++ " relation between task " ++ toString (args.id.getD 0)
                 ++ " and task " ++ toString (args.otherTaskId.getD 0)
               task := env.taskAfter })
  else if args.subcommand = "unrelate" then
    if !(numTruthy args.id) then
      ([], Except.error { code := ErrorCode.validationError, message := "Task ID is required" })
    else match validateId (args.id.getD 0) "Task ID" with
    | Except.error e => ([], Except.error e)
    | Except.ok _ =>
      if !(numTruthy args.otherTaskId) then
        ([], Except.error { code := ErrorCode.validationError, message := "Other task ID is required" })
      else match validateId (args.otherTaskId.getD 0) "Other task ID" with
      | Except.error e => ([], Except.error e)
      | Except.ok _ =>
        if !(strTruthy args.relationKind) then
          ([], Except.error { code := ErrorCode.validationError, message := "Relation kind is required" })
        else match lookupRelationKind (args.relationKind.getD "") with
        | none =>
          ([], Except.error { code := ErrorCode.validationError
                              message := "Invalid relation kind: " ++ args.relationKind.getD "" })
        | some kind =>
          ([RemoteCall.deleteTaskRelation (args.id.getD 0) kind (args.otherTaskId.getD 0),
            RemoteCall.getTask (args.id.getD 0)],
           Except.ok
             { success := true
               operation := "unrelate"
               message := "Successfully removed " ++ args.relationKind.getD ""
                 ++ " relation between task " ++ toString (args.id.getD 0)
                 ++ " and task " ++ toString (args.otherTaskId.getD 0)
               task := env.taskAfter })
  else if args.subcommand = "relations" then
    if !(numTruthy args.id) then
      ([], Except.error { code := ErrorCode.validationError, message := "Task ID is required" })
    else match validateId (args.id.getD 0) "Task ID" with
    | Except.error e => ([], Except.error e)
    | Except.ok _ =>
      ([RemoteCall.getTask (args.id.getD 0)],
       Except.ok
         { success := true
           operation := "relations"
           message := "Found relations for task " ++ toString (args.id.getD 0)
           task := env.taskAfter })
  else
    ([], Except.error { code := ErrorCode.validationError, message := "Invalid relation subcommand" })

/-- Whether a remote call is a relation mutation. -/
def isRelationCall : RemoteCall → Bool
  | RemoteCall.createTaskRelation _ _ _ => true
  | RemoteCall.deleteTaskRelation _ _ _ => true
  | _ => false

/-! ## Dispatcher prefix (src/tools/tasks/index.ts) -/

/-- The subcommands for which the dispatcher requires a task id. -/
def subcommandsRequiringId : List String :=
  ["get", "update", "delete", "relate", "unrelate", "relations"]

/-- The dispatcher-level id-requirement message, interpolating the
subcommand name. -/
def taskIdRequirementMsg (subcommand : String) : String :=
  "Task ID is required for \x27" ++ subcommand
  ++ "\x27 operation. Please provide the \x27id\x27 parameter with a valid task ID number. Example: \x7b \"subcommand\": \""
  ++ subcommand ++ "\", \"id\": 123 \x7d"

/-- validateTaskIdRequirement: a truthiness check on the id, run before
any per-subcommand handler for the subcommands that need an id. -/
def validateTaskIdRequirement (subcommand : String) (id : Option Int) : Except MCPError Unit :=
  if subcommand ∈ subcommandsRequiringId ∧ !(numTruthy id) then
    Except.error { code := ErrorCode.validationError, message := taskIdRequirementMsg subcommand }
  else Except.ok ()

/-- The id-required message thrown by getTask (TaskReadService). -/
def getIdRequiredMsg : String :=
  "Task ID is required for get operation. Please provide the \"id\" parameter with a valid task ID number. Example: \x7b \"subcommand\": \"get\", \"id\": 123 \x7d"

/-- getTask (src/tools/tasks/crud/TaskReadService.ts): id validation then
a single fetch. -/
def getTaskModel (id : Option Int) (fetched : TaskRec) :
    List RemoteCall × Except MCPError TaskRec :=
  if !(numTruthy id) then
    ([], Except.error { code := ErrorCode.validationError, message := getIdRequiredMsg })
  else match validateId (id.getD 0) "id" with
  | Except.error e => ([], Except.error e)
  | Except.ok _ => ([RemoteCall.getTask (id.getD 0)], Except.ok fetched)

/-- Argument record of the tasks tool, restricted to the fields consumed
by the subcommands embedded here. -/
structure TasksToolArgs where
  subcommand : String := ""
  id : Option Int := none
  title : Option String := none
  description : Option String := none
  dueDate : Option String := none
  priority : Option Int := none
  done : Option Bool := none
  labels : Option (List Int) := none
  assignees : Option (List Int) := none
  repeatAfter : Option Nat := none
  repeatMode : Option RepeatModeArg := none
  otherTaskId : Option Int := none
  relationKind : Option String := none
deriving DecidableEq, Repr

/-- Projection of the tool arguments onto the update handler's record. -/
def toUpdateArgs (args : TasksToolArgs) : UpdateTaskArgs :=
  { id := args.id, title := args.title, description := args.description
    dueDate := args.dueDate, priority := args.priority, done := args.done
    labels := args.labels, assignees := args.assignees
    repeatAfter := args.repeatAfter, repeatMode := args.repeatMode }

/-- Remote responses consumed by the dispatched handlers. -/
structure TasksToolEnv where
  update : UpdateEnv := {}
  delete : DeleteEnv := {}
  relation : RelationEnv := {}
  fetched : TaskRec := {}
deriving DecidableEq, Repr

/-- Outcome of one dispatched task operation. -/
inductive DispatchOutcome
  | updated (r : UpdateResult)
  | deleted (r : DeleteResult)
  | relation (r : RelationResult)
  | got (t : TaskRec)
deriving DecidableEq, Repr

/-- The dispatcher of the tasks tool, restricted to the id-requiring
subcommands: validateTaskIdRequirement runs first, then the request is
routed to the handler.  Subcommands outside this slice (list, create,
bulk operations, reminders, labels, comments) are not embedded here and
answer with a placeholder error. -/
def tasksToolModel (args : TasksToolArgs) (env : TasksToolEnv) :
    List RemoteCall × Except MCPError DispatchOutcome :=
  match validateTaskIdRequirement args.subcommand args.id with
  | Except.error e => ([], Except.error e)
  | Except.ok _ =>
    if args.subcommand = "get" then
      let (c, r) := getTaskModel args.id env.fetched
      (c, r.map DispatchOutcome.got)
    else if args.subcommand = "update" then
      let (c, r) := updateTaskModel (toUpdateArgs args) env.update
      (c, r.map DispatchOutcome.updated)
    else if args.subcommand = "delete" then
      let (c, r) := deleteTaskModel { id := args.id } env.delete
      (c, r.map DispatchOutcome.deleted)
    else if args.subcommand = "relate" ∨ args.subcommand = "unrelate"
        ∨ args.subcommand = "relations" then
      let (c, r) := handleRelationSubcommands
        { subcommand := args.subcommand, id := args.id
          otherTaskId := args.otherTaskId, relationKind := args.relationKind } env.relation
      (c, r.map DispatchOutcome.relation)
    else
      ([], Except.error { code := ErrorCode.notImplemented
                          message := "subcommand not embedded in this development" })

/-! ## Filtering orchestration (src/tools/tasks/index.ts, listTasks) -/

/-- Listing arguments: the optional filter expression and saved-filter id. -/
structure TaskListingArgs where
  filter : Option String := none
  filterId : Option String := none
deriving DecidableEq, Repr

/-- Outcome of the server-side filtered list call. -/
inductive ServerFilterOutcome
  | accepted (tasks : List TaskRec)
  | rejectedUnsupported (msg : String)
  | failedUnrelated (msg : String)
deriving DecidableEq, Repr

/-- Remote responses consumed by the filtering workflow, plus the local
evaluation predicate standing for client-side evaluation of the filter
expression against one task. -/
structure FilterEnv where
  serverOutcome : ServerFilterOutcome := ServerFilterOutcome.accepted []
  unfilteredFetch : Except String (List TaskRec) := Except.ok []
  knownIncompatibility : Bool := false
  localPred : TaskRec → Bool := fun _ => true

/-- Evaluation-path metadata of a filtered listing. -/
structure FilteringMetadata where
  serverSideFilteringUsed : Bool
  serverSideFilteringAttempted : Bool
deriving DecidableEq, Repr

/-- Result of the filtering workflow. -/
structure FilteringResult where
  tasks : List TaskRec
  metadata : FilteringMetadata

/-- Modelled from the spec: `TaskFilteringOrchestrator.executeTaskFiltering`
(src/tools/tasks/filtering) is not included under src/.  Per spec section
4.5: with a filter expression, attempt server-side evaluation first unless
a known incompatibility forbids it; when the server rejects the expression
as unsupported, fall back to an unfiltered fetch evaluated client-side;
unrelated remote failures propagate as errors. -/
def executeTaskFiltering (args : TaskListingArgs) (env : FilterEnv) :
    List RemoteCall × Except MCPError FilteringResult :=
  match args.filter with
  | none =>
    (match env.unfilteredFetch with
     | Except.ok ts =>
       ([RemoteCall.getTasksAll],
        Except.ok { tasks := ts, metadata := { serverSideFilteringUsed := false, serverSideFilteringAttempted := false } })
     | Except.error m =>
       ([RemoteCall.getTasksAll], Except.error { code := ErrorCode.apiError, message := m }))
  | some f =>
    if env.knownIncompatibility then
      match env.unfilteredFetch with
      | Except.ok ts =>
        ([RemoteCall.getTasksAll],
         Except.ok { tasks := ts.filter env.localPred
                     metadata := { serverSideFilteringUsed := false, serverSideFilteringAttempted := false } })
      | Except.error m =>
        ([RemoteCall.getTasksAll], Except.error { code := ErrorCode.apiError, message := m })
    else
      match env.serverOutcome with
      | ServerFilterOutcome.accepted ts =>
        ([RemoteCall.getTasksFiltered f],
         Except.ok { tasks := ts
                     metadata := { serverSideFilteringUsed := true, serverSideFilteringAttempted := true } })
      | ServerFilterOutcome.rejectedUnsupported _ =>
        (match env.unfilteredFetch with
         | Except.ok ts =>
           ([RemoteCall.getTasksFiltered f, RemoteCall.getTasksAll],
            Except.ok { tasks := ts.filter env.localPred
                        metadata := { serverSideFilteringUsed := false, serverSideFilteringAttempted := true } })
         | Except.error m =>
           ([RemoteCall.getTasksFiltered f, RemoteCall.getTasksAll],
            Except.error { code := ErrorCode.apiError, message := m }))
      | ServerFilterOutcome.failedUnrelated m =>
        ([RemoteCall.getTasksFiltered f],
         Except.error { code := ErrorCode.apiError, message := m })

/-- The filtering-method suffix appended to the listTasks message
(src/tools/tasks/index.ts, listTasks): present only when the request had
a filter, and distinguishing the three evaluation paths. -/
def filteringMessage (hasFilter : Bool) (md : FilteringMetadata) : String :=
  if hasFilter then
    if md.serverSideFilteringUsed then " (filtered server-side)"
    else if md.serverSideFilteringAttempted then " (filtered client-side - server-side fallback)"
    else " (filtered client-side)"
  else ""

/-- listTasks: run the filtering workflow and shape the response, with the
evaluation-path indicator folded into the message and the metadata. -/
def listTasksModel (args : TaskListingArgs) (env : FilterEnv) :
    List RemoteCall × Except MCPError (List TaskRec × FilteringMetadata × String) :=
  match executeTaskFiltering args env with
  | (c, Except.error e) => (c, Except.error e)
  | (c, Except.ok r) =>
    (c, Except.ok (r.tasks, r.metadata,
      "Found " ++ toString r.tasks.length ++ " tasks"
        ++ filteringMessage args.filter.isSome r.metadata))

/-- Brute-force substring test, used to state that an error message does
or does not mention an operation name. -/
def strContainsSub (hay needle : String) : Bool :=
  (List.range (hay.length + 1)).any (fun i => needle.data.isPrefixOf (hay.data.drop i))

/-- Acceptability of the dueDate field for the update validation prefix:
absent, empty (JavaScript-falsy, so not validated), or well-formed. -/
def dueDateOkB (args : UpdateTaskArgs) : Bool :=
  match args.dueDate with
  | none => true
  | some d =>
    d == "" ||
      (match validateDateString d "dueDate" with
       | Except.ok _ => true
       | Except.error _ => false)

/-- A remote environment whose current task has priority 3, used for the
no-change update example. -/
def priorityEnvExample : UpdateEnv := { currentTask := { priority := some 3 } }

/-! ## Theorems -/

/-- Membership in the computed additions. -/
theorem mem_toAdd {current desired : List Int} {x : Int} :
    x ∈ toAdd current desired ↔ x ∈ desired ∧ x ∉ current := by
  simp [toAdd]

/-- Membership in the computed removals. -/
theorem mem_toRemove {current desired : List Int} {x : Int} :
    x ∈ toRemove current desired ↔ x ∈ current ∧ x ∉ desired := by
  simp [toRemove]

/-- Folding single removals over a state removes exactly the listed ids. -/
theorem mem_foldl_removeAssignee (l : List Int) (s : List Int) (x : Int) :
    x ∈ List.foldl removeAssignee s l ↔ x ∈ s ∧ x ∉ l := by
  induction l generalizing s with
  | nil => simp
  | cons r l ih =>
    rw [List.foldl_cons, ih]
    simp only [removeAssignee, List.mem_filter, bne_iff_ne, ne_eq, List.mem_cons]
    tauto

/-- An id that is in the starting state and not among the removals stays
in every state of the removal sequence. -/
theorem mem_scanl_removeAssignee {d : Int} :
    ∀ (l : List Int) (s : List Int), d ∈ s → d ∉ l →
      ∀ t ∈ List.scanl removeAssignee s l, d ∈ t := by
  intro l
  induction l with
  | nil =>
    intro s hs _ t ht
    simp only [List.scanl, List.mem_singleton] at ht
    exact ht ▸ hs
  | cons r l ih =>
    intro s hs hl t ht
    simp only [List.scanl, List.mem_cons] at ht
    rcases ht with rfl | ht
    · exact hs
    · refine ih (removeAssignee s r) ?_ ?_ t ht
      · simp only [removeAssignee, List.mem_filter, bne_iff_ne, ne_eq]
        exact ⟨hs, fun h => hl (h ▸ List.mem_cons_self r l)⟩
      · exact fun h => hl (List.mem_cons_of_mem _ h)

/-- C1: For every pair of assignee-identifier sets (current, desired), the
diff computed by updateTaskAssignees satisfies toAdd = desired − current
and toRemove = current − desired (memberwise), so toAdd and toRemove are
disjoint and desired = (current ∪ toAdd) − toRemove; additions are applied
before removals, the state after all additions and removals is exactly
desired, and when current and desired are both non-empty no state of the
sequence (start, after all additions, after each single removal) is the
empty set. -/
theorem assignee_diff_correct (current desired : List Int) :
    (∀ x, x ∈ toAdd current desired ↔ x ∈ desired ∧ x ∉ current) ∧
    (∀ x, x ∈ toRemove current desired ↔ x ∈ current ∧ x ∉ desired) ∧
    (∀ x, ¬(x ∈ toAdd current desired ∧ x ∈ toRemove current desired)) ∧
    (∀ x, (x ∈ current ++ toAdd current desired ∧ x ∉ toRemove current desired) ↔ x ∈ desired) ∧
    (∀ x, x ∈ List.foldl removeAssignee (current ++ toAdd current desired)
            (toRemove current desired) ↔ x ∈ desired) ∧
    (current ≠ [] → desired ≠ [] → ∀ s ∈ assigneeStates current desired, s ≠ []) := by
  have hunion : ∀ x : Int,
      (x ∈ current ++ toAdd current desired ∧ x ∉ toRemove current desired) ↔ x ∈ desired := by
    intro x
    rw [List.mem_append, mem_toAdd, mem_toRemove]
    by_cases h1 : x ∈ current <;> by_cases h2 : x ∈ desired <;> tauto
  refine ⟨fun x => mem_toAdd, fun x => mem_toRemove, ?_, hunion, ?_, ?_⟩
  · intro x ⟨ha, hr⟩
    exact (mem_toRemove.1 hr).2 (mem_toAdd.1 ha).1
  · intro x
    rw [mem_foldl_removeAssignee]
    exact hunion x
  · intro hc hd
    obtain ⟨d, hdm⟩ := List.exists_mem_of_ne_nil desired hd
    intro s hs
    simp only [assigneeStates, List.mem_cons] at hs
    rcases hs with rfl | hs
    · exact hc
    · have hin : d ∈ current ++ toAdd current desired := by
        rw [List.mem_append, mem_toAdd]
        by_cases h : d ∈ current <;> tauto
      have hout : d ∉ toRemove current desired := by
        rw [mem_toRemove]; tauto
      exact List.ne_nil_of_mem (mem_scanl_removeAssignee _ _ hin hout s hs)

/-- Witness for C1 at current = [1, 2], desired = [2, 3], discharging the
non-emptiness hypotheses of the intermediate-state clause. -/
theorem assignee_diff_correct_witness :
    (∀ x, x ∈ toAdd [1, 2] [2, 3] ↔ x ∈ ([2, 3] : List Int) ∧ x ∉ ([1, 2] : List Int)) ∧
    (∀ s ∈ assigneeStates [1, 2] [2, 3], s ≠ []) :=
  ⟨(assignee_diff_correct [1, 2] [2, 3]).1,
   (assignee_diff_correct [1, 2] [2, 3]).2.2.2.2.2 (by decide) (by decide)⟩

/-- C5: The date validator accepts a string exactly when it matches the
pattern YYYY-MM-DDTHH:mm:ss.sssZ and the components form a real calendar
date/time; it accepts 2025-10-30T04:05:22.422Z and rejects the
millisecond-free, date-only and month-13 variants, each with a
ValidationError. -/
theorem validateDateString_spec :
    (∀ s fieldName, validateDateString s fieldName = Except.ok ()
        ↔ (matchesIsoMillisPattern s = true ∧ jsDateTimeValid s = true)) ∧
    validateDateString "2025-10-30T04:05:22.422Z" "dueDate" = Except.ok () ∧
    (∃ e, validateDateString "2025-10-30T04:05:22Z" "dueDate" = Except.error e
        ∧ e.code = ErrorCode.validationError) ∧
    (∃ e, validateDateString "2025-10-30" "dueDate" = Except.error e
        ∧ e.code = ErrorCode.validationError) ∧
    (∃ e, validateDateString "2025-13-30T04:05:22.422Z" "dueDate" = Except.error e
        ∧ e.code = ErrorCode.validationError) := by
  refine ⟨?_, rfl, ⟨_, rfl, rfl⟩, ⟨_, rfl, rfl⟩, ⟨_, rfl, rfl⟩⟩
  intro s fieldName
  unfold validateDateString
  rcases h1 : matchesIsoMillisPattern s <;> rcases h2 : jsDateTimeValid s <;> simp [h1, h2]

/-- C6: Repeat-policy conversion maps two weeks to 1209600 seconds with
mode flag 0 (use the interval), maps month mode to mode flag 1 for every
interval value, and converts the day, week and year units to seconds with
the fixed multipliers 86400, 604800 and 31536000. -/
theorem convertRepeatConfiguration_spec :
    convertRepeatConfiguration (some 2) (some RepeatModeArg.week)
      = { repeat_after := some 1209600, repeat_mode := some 0 } ∧
    (∀ n, (convertRepeatConfiguration n (some RepeatModeArg.month)).repeat_mode = some 1) ∧
    (∀ n, convertRepeatConfiguration (some n) (some RepeatModeArg.day)
      = { repeat_after := some (n * 86400), repeat_mode := some 0 }) ∧
    (∀ n, convertRepeatConfiguration (some n) (some RepeatModeArg.week)
      = { repeat_after := some (n * 604800), repeat_mode := some 0 }) ∧
    (∀ n, convertRepeatConfiguration (some n) (some RepeatModeArg.year)
      = { repeat_after := some (n * 31536000), repeat_mode := some 0 }) := by
  refine ⟨by decide, ?_, ?_, ?_, ?_⟩
  · intro n; simp [convertRepeatConfiguration]
  · intro n
    have h : n * 24 * 60 * 60 = n * 86400 := by ring
    simp [convertRepeatConfiguration, h]
  · intro n
    have h : n * 7 * 24 * 60 * 60 = n * 604800 := by ring
    simp [convertRepeatConfiguration, h]
  · intro n
    have h : n * 365 * 24 * 60 * 60 = n * 31536000 := by ring
    simp [convertRepeatConfiguration, h]

/-- Value of rollbackTaskCreation when the created task has a truthy id. -/
theorem rollbackTaskCreation_spec (cs : CreationState) (deleteOk : Bool) (msg : String)
    (h : numTruthy cs.createdTask.id = true) :
    rollbackTaskCreation cs deleteOk msg =
      ([RemoteCall.deleteTask (cs.createdTask.id.getD 0)],
       { code := ErrorCode.apiError
         message := rollbackMessage msg deleteOk
         details := some
           { taskId := cs.createdTask.id
             partiallyCreated := true
             labelsAdded := cs.labelsAdded
             assigneesAdded := cs.assigneesAdded
             rollbackSucceeded := deleteOk } }) := by
  simp [rollbackTaskCreation, h]

/-- C2: In the create workflow, when the base creation succeeded (the
created task carries an id) and a label or assignee application fails, the
compensating delete of the just-created task is attempted, and the single
surfaced error carries the original failure message, reports
rollbackSucceeded equal to the compensating delete's outcome (so the two
cases are distinguishable), and records which secondary steps had already
been applied. -/
theorem create_rollback_reports (createdTask : TaskRec) (labels assignees : List Int)
    (env : CreateSecondaryEnv)
    (htid : numTruthy createdTask.id = true)
    (hfail : (labels ≠ [] ∧ env.labelsOk = false)
      ∨ ((labels = [] ∨ env.labelsOk = true) ∧ assignees ≠ [] ∧ env.assigneesOk = false)) :
    ∃ e, (applySecondaryCalls createdTask labels assignees env).2 = Except.error e ∧
      RemoteCall.deleteTask (createdTask.id.getD 0)
        ∈ (applySecondaryCalls createdTask labels assignees env).1 ∧
      e.code = ErrorCode.apiError ∧
      e.message = rollbackMessage
        (if labels ≠ [] ∧ env.labelsOk = false then env.labelsErrMsg else env.assigneesErrMsg)
        env.deleteOk ∧
      ∃ d, e.details = some d ∧
        d.rollbackSucceeded = env.deleteOk ∧
        d.partiallyCreated = true ∧
        d.labelsAdded = (decide (labels ≠ []) && env.labelsOk) ∧
        d.assigneesAdded = false := by
  rcases hfail with ⟨hln, hlo⟩ | ⟨hlok, han, hao⟩
  · have hres : applySecondaryCalls createdTask labels assignees env =
        ([RemoteCall.updateTaskLabels (createdTask.id.getD 0) labels,
          RemoteCall.deleteTask (createdTask.id.getD 0)],
         Except.error
           { code := ErrorCode.apiError
             message := rollbackMessage env.labelsErrMsg env.deleteOk
             details := some
               { taskId := createdTask.id
                 partiallyCreated := true
                 labelsAdded := false
                 assigneesAdded := false
                 rollbackSucceeded := env.deleteOk } }) := by
      simp [applySecondaryCalls, rollbackTaskCreation, hln, htid, hlo]
    rw [hres]
    exact ⟨_, rfl, by simp, rfl, by simp [hln, hlo], _, rfl, rfl, rfl,
      by simp [hln, hlo], rfl⟩
  · by_cases hln : labels = []
    · have hres : applySecondaryCalls createdTask labels assignees env =
          ([RemoteCall.bulkAssignUsersToTask (createdTask.id.getD 0) assignees,
            RemoteCall.deleteTask (createdTask.id.getD 0)],
           Except.error
             { code := ErrorCode.apiError
               message := rollbackMessage env.assigneesErrMsg env.deleteOk
               details := some
                 { taskId := createdTask.id
                   partiallyCreated := true
                   labelsAdded := false
                   assigneesAdded := false
                   rollbackSucceeded := env.deleteOk } }) := by
        simp [applySecondaryCalls, rollbackTaskCreation, hln, htid, han, hao]
      rw [hres]
      exact ⟨_, rfl, by simp, rfl, by simp [hln], _, rfl, rfl, rfl,
        by simp [hln], rfl⟩
    · have hlt : env.labelsOk = true := by tauto
      have hres : applySecondaryCalls createdTask labels assignees env =
          ([RemoteCall.updateTaskLabels (createdTask.id.getD 0) labels,
            RemoteCall.bulkAssignUsersToTask (createdTask.id.getD 0) assignees,
            RemoteCall.deleteTask (createdTask.id.getD 0)],
           Except.error
             { code := ErrorCode.apiError
               message := rollbackMessage env.assigneesErrMsg env.deleteOk
               details := some
                 { taskId := createdTask.id
                   partiallyCreated := true
                   labelsAdded := true
                   assigneesAdded := false
                   rollbackSucceeded := env.deleteOk } }) := by
        simp [applySecondaryCalls, rollbackTaskCreation, hln, htid, hlt, han, hao]
      rw [hres]
      exact ⟨_, rfl, by simp, rfl, by simp [hlt], _, rfl, rfl, rfl,
        by simp [hln, hlt], rfl⟩

/-- Witness for C2: created task with id 7, label application fails,
compensating delete succeeds; the surfaced error reports the rollback. -/
theorem create_rollback_reports_witness :
    numTruthy ({ id := some 7 } : TaskRec).id = true ∧
    ∃ e, (applySecondaryCalls { id := some 7 } [1] []
            { labelsOk := false, labelsErrMsg := "label update failed" }).2 = Except.error e ∧
      RemoteCall.deleteTask 7
        ∈ (applySecondaryCalls { id := some 7 } [1] []
            { labelsOk := false, labelsErrMsg := "label update failed" }).1 ∧
      ∃ d, e.details = some d ∧ d.rollbackSucceeded = true ∧ d.labelsAdded = false := by
  have h := create_rollback_reports { id := some 7 } [1] []
    { labelsOk := false, labelsErrMsg := "label update failed" } rfl (Or.inl ⟨by decide, rfl⟩)
  obtain ⟨e, h1, h2, -, -, d, h5, h6, -, h8, -⟩ := h
  exact ⟨rfl, e, h1, h2, d, h5, h6, by rw [h8]; decide⟩

/-- C8: In the delete workflow, for a valid identifier the delete call is
performed whether or not the pre-deletion fetch succeeded, the pre-fetch
failure is never surfaced, and when the delete call succeeds the response
is a success keyed by the identifier, carrying a title only when the
pre-fetch succeeded. -/
theorem delete_prefetch_failure_tolerated (args : DeleteTaskArgs) (env : DeleteEnv) (n : Int)
    (hid : args.id = some n) (hn : 1 ≤ n) :
    RemoteCall.deleteTask n ∈ (deleteTaskModel args env).1 ∧
    (env.deleteOk = true →
      ∃ r, (deleteTaskModel args env).2 = Except.ok r ∧ r.taskId = n ∧
        (env.fetchedTask = none →
          r.task = none ∧ r.deletedTaskId = some n ∧ r.taskTitle = none ∧
          r.message = "Task " ++ toString n ++ " deleted successfully") ∧
        (∀ t, r.taskTitle = some t → env.fetchedTask ≠ none)) := by
  have ha : args = { id := some n } := by
    cases args
    simp_all
  subst ha
  have h0 : numTruthy (some n) = true := by
    simp only [numTruthy, bne_iff_ne, ne_eq, decide_eq_true_eq]
    omega
  have h1 : validateId n "id" = Except.ok () := by
    simp [validateId, hn]
  constructor
  · cases hft : env.fetchedTask <;> cases hok : env.deleteOk <;>
      simp [deleteTaskModel, h0, h1, gatherDeletionContext, hft, hok]
  · intro hok
    cases hft : env.fetchedTask with
    | none =>
      have hres : deleteTaskModel { id := some n } env =
          ([RemoteCall.getTask n, RemoteCall.deleteTask n],
           Except.ok
             { message := "Task " ++ toString n ++ " deleted successfully"
               task := none, deletedTaskId := some n, taskId := n, taskTitle := none }) := by
        simp [deleteTaskModel, h0, h1, gatherDeletionContext, hft, hok]
      rw [hres]
      exact ⟨_, rfl, rfl, fun _ => ⟨rfl, rfl, rfl, rfl⟩, fun t h => by simp at h⟩
    | some t0 =>
      have hres : deleteTaskModel { id := some n } env =
          ([RemoteCall.getTask n, RemoteCall.deleteTask n],
           Except.ok
             { message := "Task \"" ++ t0.title.getD "" ++ "\" deleted successfully"
               task := some t0, deletedTaskId := none, taskId := n
               taskTitle := if strTruthy t0.title then t0.title else none }) := by
        simp [deleteTaskModel, h0, h1, gatherDeletionContext, hft, hok]
      rw [hres]
      exact ⟨_, rfl, rfl, fun h => absurd h (by simp [hft]), fun t _ => by simp [hft]⟩

/-- Witness for C8: deleting task 5 when the pre-fetch fails still
succeeds, keyed by the identifier with no title. -/
theorem delete_prefetch_failure_tolerated_witness :
    ∃ r, (deleteTaskModel { id := some 5 } { fetchedTask := none }).2 = Except.ok r ∧
      r.taskId = 5 ∧ r.deletedTaskId = some 5 ∧ r.taskTitle = none := by
  have h := delete_prefetch_failure_tolerated { id := some 5 } { fetchedTask := none } 5 rfl
    (by decide)
  obtain ⟨-, h2⟩ := h
  obtain ⟨r, hr, htid, himpl, -⟩ := h2 rfl
  obtain ⟨-, hdel, htt, -⟩ := himpl rfl
  exact ⟨r, hr, htid, hdel, htt⟩

/-- Every error raised by validateDateString is a ValidationError. -/
theorem validateDateString_error_code (d f : String) (e : MCPError)
    (h : validateDateString d f = Except.error e) : e.code = ErrorCode.validationError := by
  unfold validateDateString at h
  split at h
  · injection h with h'
    subst h'
    rfl
  · split at h
    · injection h with h'
      subst h'
      rfl
    · cases h

/-- C3 counterexample: an update request whose arguments contain a labels
field but no id fails with the id-required ValidationError, whose message
does not direct the caller to the apply-label operation. -/
theorem update_labels_redirect_counterexample :
    ∃ e, updateTaskModel { labels := some [] } {} = ([], Except.error e) ∧
      e.code = ErrorCode.validationError ∧
      e.message = idRequiredForUpdateMsg ∧
      strContainsSub e.message "apply-label" = false :=
  ⟨{ code := ErrorCode.validationError, message := idRequiredForUpdateMsg }, rfl, rfl, rfl,
    by set_option maxRecDepth 8000 in decide⟩

/-- C3 amended: every update request carrying a labels field (any value,
including an empty array) fails with a ValidationError and issues no
remote call; when the id is present and valid and any truthy dueDate is
well-formed, the error is the one directing the caller to the apply-label
operation. -/
theorem update_rejects_labels (args : UpdateTaskArgs) (env : UpdateEnv)
    (hl : args.labels ≠ none) :
    ∃ e, updateTaskModel args env = ([], Except.error e) ∧
      e.code = ErrorCode.validationError ∧
      (numTruthy args.id = true → 1 ≤ args.id.getD 0 → dueDateOkB args = true →
        e.message = applyLabelRedirectMsg (args.id.getD 0)) := by
  have key : ∃ e, updateTaskValidate args = Except.error e ∧
      e.code = ErrorCode.validationError ∧
      (numTruthy args.id = true → 1 ≤ args.id.getD 0 → dueDateOkB args = true →
        e.message = applyLabelRedirectMsg (args.id.getD 0)) := by
    by_cases hid : numTruthy args.id = true
    · by_cases hn : 1 ≤ args.id.getD 0
      · have hv : validateId (args.id.getD 0) "id" = Except.ok () := by
          simp [validateId, hn]
        cases hdd : args.dueDate with
        | none =>
          exact ⟨{ code := ErrorCode.validationError
                   message := applyLabelRedirectMsg (args.id.getD 0) },
            by simp [updateTaskValidate, hid, hv, hdd, hl], rfl, fun _ _ _ => rfl⟩
        | some d =>
          by_cases hde : d = ""
          · exact ⟨{ code := ErrorCode.validationError
                     message := applyLabelRedirectMsg (args.id.getD 0) },
              by simp [updateTaskValidate, hid, hv, hdd, hde, hl], rfl, fun _ _ _ => rfl⟩
          · cases hvd : validateDateString d "dueDate" with
            | ok u =>
              cases u
              exact ⟨{ code := ErrorCode.validationError
                       message := applyLabelRedirectMsg (args.id.getD 0) },
                by simp [updateTaskValidate, hid, hv, hdd, hde, hvd, hl], rfl,
                fun _ _ _ => rfl⟩
            | error e' =>
              refine ⟨e', by simp [updateTaskValidate, hid, hv, hdd, hde, hvd],
                validateDateString_error_code d _ e' hvd, ?_⟩
              intro _ _ hddok
              exfalso
              simp [dueDateOkB, hdd, hde, hvd] at hddok
      · have hv : validateId (args.id.getD 0) "id" = Except.error
            { code := ErrorCode.validationError
              message := "id must be a positive integer. Received: " ++ toString (args.id.getD 0) } := by
          simp [validateId, hn]
        refine ⟨{ code := ErrorCode.validationError
                  message := "id must be a positive integer. Received: " ++ toString (args.id.getD 0) },
          by simp [updateTaskValidate, hid, hv], rfl, ?_⟩
        intro _ hn' _
        exact absurd hn' hn
    · have hid' : numTruthy args.id = false := by
        revert hid
        cases numTruthy args.id <;> simp
      exact ⟨{ code := ErrorCode.validationError, message := idRequiredForUpdateMsg },
        by simp [updateTaskValidate, hid'], rfl, fun hid'' _ _ => absurd hid'' hid⟩
  obtain ⟨e, he, hc, hm⟩ := key
  exact ⟨e, by simp [updateTaskModel, he], hc, hm⟩

/-- Witness for C3 at a request with a valid id and labels. -/
theorem update_rejects_labels_witness :
    (({ id := some 123, labels := some [1, 2, 3] } : UpdateTaskArgs).labels ≠ none) ∧
    ∃ e, updateTaskModel { id := some 123, labels := some [1, 2, 3] } {} = ([], Except.error e) ∧
      e.code = ErrorCode.validationError ∧ e.message = applyLabelRedirectMsg 123 := by
  have h := update_rejects_labels { id := some 123, labels := some [1, 2, 3] } {} (by simp)
  obtain ⟨e, h1, h2, h3⟩ := h
  exact ⟨by simp, e, h1, h2, h3 rfl (by decide) rfl⟩

/-- Membership in a conditional singleton. -/
theorem mem_ite_singleton {α : Type} (p : Prop) [Decidable p] (a b : α) :
    (a ∈ (if p then [b] else [])) ↔ (p ∧ a = b) := by
  split <;> simp_all

/-- C9 counterexample: an update request whose only relation field is an
assignees list equal to the fetched assignee set still yields nonempty
affectedFields, although no requested value differs from the fetched one. -/
theorem affected_fields_counterexample :
    (analyzeUpdateState { assignees := some [1] } { id := some 123, assignees := some [1] }).affectedFields
      = ["assignees"] ∧
    ({ id := some 123, assignees := some [1] } : UpdateTaskArgs).assignees
      = ({ assignees := some [1] } : TaskRec).assignees ∧
    (analyzeUpdateState { assignees := some [1] } { id := some 123, assignees := some [1] }).affectedFields
      ≠ [] := by
  refine ⟨by decide, rfl, by decide⟩

/-- C9 amended: affectedFields contains a scalar field exactly when that
field is present in the request and strictly differs from the fetched
value; repeatMode, labels and assignees are listed whenever present in
the request (repeatMode because the unit name is compared against the
numeric fetched mode, labels and assignees without any comparison); and
an update request whose only field is a priority equal to the fetched
priority yields empty affectedFields while the remote update call is
still issued. -/
theorem affected_fields_characterization (ct : TaskRec) (args : UpdateTaskArgs) :
    (("title" ∈ (analyzeUpdateState ct args).affectedFields)
      ↔ (args.title ≠ none ∧ args.title ≠ ct.title)) ∧
    (("description" ∈ (analyzeUpdateState ct args).affectedFields)
      ↔ (args.description ≠ none ∧ args.description ≠ ct.description)) ∧
    (("dueDate" ∈ (analyzeUpdateState ct args).affectedFields)
      ↔ (args.dueDate ≠ none ∧ args.dueDate ≠ ct.due_date)) ∧
    (("priority" ∈ (analyzeUpdateState ct args).affectedFields)
      ↔ (args.priority ≠ none ∧ args.priority ≠ ct.priority)) ∧
    (("done" ∈ (analyzeUpdateState ct args).affectedFields)
      ↔ (args.done ≠ none ∧ args.done ≠ ct.done)) ∧
    (("repeatAfter" ∈ (analyzeUpdateState ct args).affectedFields)
      ↔ (args.repeatAfter ≠ none ∧ args.repeatAfter ≠ ct.repeat_after)) ∧
    (("repeatMode" ∈ (analyzeUpdateState ct args).affectedFields) ↔ args.repeatMode ≠ none) ∧
    (("labels" ∈ (analyzeUpdateState ct args).affectedFields) ↔ args.labels ≠ none) ∧
    (("assignees" ∈ (analyzeUpdateState ct args).affectedFields) ↔ args.assignees ≠ none) ∧
    ((analyzeUpdateState priorityEnvExample.currentTask
        { id := some 123, priority := some 3 }).affectedFields = [] ∧
     ∃ r, (updateTaskModel { id := some 123, priority := some 3 } priorityEnvExample).2
            = Except.ok r ∧
       r.affectedFields = [] ∧
       RemoteCall.updateTask 123
           (buildUpdateData priorityEnvExample.currentTask { id := some 123, priority := some 3 })
         ∈ (updateTaskModel { id := some 123, priority := some 3 } priorityEnvExample).1) := by
  refine ⟨?_, ?_, ?_, ?_, ?_, ?_, ?_, ?_, ?_, by decide, ?_⟩
  · simp [analyzeUpdateState, affectedFieldsOf, mem_ite_singleton]
  · simp [analyzeUpdateState, affectedFieldsOf, mem_ite_singleton]
  · simp [analyzeUpdateState, affectedFieldsOf, mem_ite_singleton]
  · simp [analyzeUpdateState, affectedFieldsOf, mem_ite_singleton]
  · simp [analyzeUpdateState, affectedFieldsOf, mem_ite_singleton]
  · simp [analyzeUpdateState, affectedFieldsOf, mem_ite_singleton]
  · simp [analyzeUpdateState, affectedFieldsOf, mem_ite_singleton]
  · simp [analyzeUpdateState, affectedFieldsOf, mem_ite_singleton]
  · simp [analyzeUpdateState, affectedFieldsOf, mem_ite_singleton]
  · exact ⟨_, rfl, rfl, by decide⟩

/-- A string in the accepted vocabulary looks itself up. -/
theorem lookupRelationKind_mem (k : String) (hk : k ∈ actualRelationKinds) :
    lookupRelationKind k = some k := by
  simp only [actualRelationKinds, RELATION_KIND_MAP, List.map_cons, List.map_nil,
    List.mem_cons, List.not_mem_nil, or_false] at hk
  rcases hk with rfl | rfl | rfl | rfl | rfl | rfl | rfl | rfl | rfl | rfl | rfl | rfl <;> rfl

/-- A string outside the accepted vocabulary looks up to nothing. -/
theorem lookupRelationKind_not_mem (k : String) (hk : k ∉ actualRelationKinds) :
    lookupRelationKind k = none := by
  cases hfind : RELATION_KIND_MAP.find? (fun p => p.1 == k) with
  | none => simp [lookupRelationKind, hfind]
  | some p =>
    exfalso
    apply hk
    have h1 := List.find?_some hfind
    have h2 : p ∈ RELATION_KIND_MAP := List.mem_of_find?_eq_some hfind
    have h3 : p.1 = k := by simpa using h1
    subst h3
    exact List.mem_map_of_mem (fun q => q.1) h2

/-- C7 counterexample: the kind name "parent" belongs to the vocabulary
stated by the claim but is rejected by the relate operation with a
ValidationError, so the accepted vocabulary is not the claimed set. -/
theorem relation_kind_vocabulary_counterexample :
    "parent" ∈ claimedRelationKinds ∧
    "parent" ∉ actualRelationKinds ∧
    ∃ e, (handleRelationSubcommands
        { subcommand := "relate", id := some 1, otherTaskId := some 2, relationKind := some "parent" }
        {}).2 = Except.error e ∧
      e.code = ErrorCode.validationError ∧
      e.message = "Invalid relation kind: parent" := by
  refine ⟨by decide, by decide,
    ⟨{ code := ErrorCode.validationError, message := "Invalid relation kind: parent" },
      rfl, rfl, rfl⟩⟩

/-- C7 amended: the relation-kind vocabulary accepted by the relate and
unrelate operations is exactly the key set of RELATION_KIND_MAP (unknown,
subtask, parenttask, related, duplicateof, duplicates, blocking, blocked,
precedes, follows, copiedfrom, copiedto): with valid identifiers every
member is accepted and the relation mutation issued, while every string
outside the set fails with a ValidationError and no relation call is
issued. -/
theorem relation_kind_vocabulary (k : String) (i j : Int) (env : RelationEnv)
    (hi : 1 ≤ i) (hj : 1 ≤ j) :
    (k ∈ actualRelationKinds →
      (∃ r, (handleRelationSubcommands
          { subcommand := "relate", id := some i, otherTaskId := some j, relationKind := some k }
          env).2 = Except.ok r ∧
        RemoteCall.createTaskRelation i j k ∈ (handleRelationSubcommands
          { subcommand := "relate", id := some i, otherTaskId := some j, relationKind := some k }
          env).1) ∧
      (∃ r, (handleRelationSubcommands
          { subcommand := "unrelate", id := some i, otherTaskId := some j, relationKind := some k }
          env).2 = Except.ok r ∧
        RemoteCall.deleteTaskRelation i k j ∈ (handleRelationSubcommands
          { subcommand := "unrelate", id := some i, otherTaskId := some j, relationKind := some k }
          env).1)) ∧
    (k ∉ actualRelationKinds →
      (∃ e, (handleRelationSubcommands
          { subcommand := "relate", id := some i, otherTaskId := some j, relationKind := some k }
          env).2 = Except.error e ∧ e.code = ErrorCode.validationError) ∧
      (∀ c ∈ (handleRelationSubcommands
          { subcommand := "relate", id := some i, otherTaskId := some j, relationKind := some k }
          env).1, isRelationCall c = false) ∧
      (∃ e, (handleRelationSubcommands
          { subcommand := "unrelate", id := some i, otherTaskId := some j, relationKind := some k }
          env).2 = Except.error e ∧ e.code = ErrorCode.validationError) ∧
      (∀ c ∈ (handleRelationSubcommands
          { subcommand := "unrelate", id := some i, otherTaskId := some j, relationKind := some k }
          env).1, isRelationCall c = false)) := by
  have hti : numTruthy (some i) = true := by
    simp only [numTruthy, bne_iff_ne, ne_eq, decide_eq_true_eq]
    omega
  have htj : numTruthy (some j) = true := by
    simp only [numTruthy, bne_iff_ne, ne_eq, decide_eq_true_eq]
    omega
  have hvi : validateId i "Task ID" = Except.ok () := by simp [validateId, hi]
  have hvj : validateId j "Other task ID" = Except.ok () := by simp [validateId, hj]
  constructor
  · intro hk
    have hlk : lookupRelationKind k = some k := lookupRelationKind_mem k hk
    have hne : k ≠ "" := by
      intro h
      subst h
      simp [actualRelationKinds, RELATION_KIND_MAP] at hk
    have hst : strTruthy (some k) = true := by simp [strTruthy, hne]
    have hres1 : handleRelationSubcommands
        { subcommand := "relate", id := some i, otherTaskId := some j, relationKind := some k }
        env =
        ([RemoteCall.createTaskRelation i j k, RemoteCall.getTask i],
         Except.ok
           { success := true, operation := "relate"
             message := "Successfully created " ++ k ++ " relation between task "
               ++ toString i ++ " and task " ++ toString j
             task := env.taskAfter }) := by
      simp [handleRelationSubcommands, hti, htj, hvi, hvj, hlk, hst]
    have hres2 : handleRelationSubcommands
        { subcommand := "unrelate", id := some i, otherTaskId := some j, relationKind := some k }
        env =
        ([RemoteCall.deleteTaskRelation i k j, RemoteCall.getTask i],
         Except.ok
           { success := true, operation := "unrelate"
             message := "Successfully removed " ++ k ++ " relation between task "
               ++ toString i ++ " and task " ++ toString j
             task := env.taskAfter }) := by
      simp [handleRelationSubcommands, hti, htj, hvi, hvj, hlk, hst]
    exact ⟨⟨_, by rw [hres1], by rw [hres1]; simp⟩, ⟨_, by rw [hres2], by rw [hres2]; simp⟩⟩
  · intro hk
    have hlk : lookupRelationKind k = none := lookupRelationKind_not_mem k hk
    by_cases hke : k = ""
    · subst hke
      have hres1 : handleRelationSubcommands
          { subcommand := "relate", id := some i, otherTaskId := some j, relationKind := some "" }
          env = ([], Except.error
            { code := ErrorCode.validationError, message := relateKindRequiredMsg }) := by
        simp [handleRelationSubcommands, hti, htj, hvi, hvj, strTruthy]
      have hres2 : handleRelationSubcommands
          { subcommand := "unrelate", id := some i, otherTaskId := some j, relationKind := some "" }
          env = ([], Except.error
            { code := ErrorCode.validationError, message := "Relation kind is required" }) := by
        simp [handleRelationSubcommands, hti, htj, hvi, hvj, strTruthy]
      refine ⟨⟨_, by rw [hres1], rfl⟩, ?_, ⟨_, by rw [hres2], rfl⟩, ?_⟩
      · rw [hres1]
        simp
      · rw [hres2]
        simp
    · have hst : strTruthy (some k) = true := by simp [strTruthy, hke]
      have hres1 : handleRelationSubcommands
          { subcommand := "relate", id := some i, otherTaskId := some j, relationKind := some k }
          env = ([], Except.error
            { code := ErrorCode.validationError, message := "Invalid relation kind: " ++ k }) := by
        simp [handleRelationSubcommands, hti, htj, hvi, hvj, hst, hlk]
      have hres2 : handleRelationSubcommands
          { subcommand := "unrelate", id := some i, otherTaskId := some j, relationKind := some k }
          env = ([], Except.error
            { code := ErrorCode.validationError, message := "Invalid relation kind: " ++ k }) := by
        simp [handleRelationSubcommands, hti, htj, hvi, hvj, hst, hlk]
      refine ⟨⟨_, by rw [hres1], rfl⟩, ?_, ⟨_, by rw [hres2], rfl⟩, ?_⟩
      · rw [hres1]
        simp
      · rw [hres2]
        simp

/-- Witness for C7: the kind subtask with valid identifiers is accepted
and the relation creation call is issued. -/
theorem relation_kind_vocabulary_witness :
    ∃ r, (handleRelationSubcommands
        { subcommand := "relate", id := some 1, otherTaskId := some 2, relationKind := some "subtask" }
        {}).2 = Except.ok r ∧
      RemoteCall.createTaskRelation 1 2 "subtask" ∈ (handleRelationSubcommands
        { subcommand := "relate", id := some 1, otherTaskId := some 2, relationKind := some "subtask" }
        {}).1 := by
  have h := relation_kind_vocabulary "subtask" 1 2 {} (by decide) (by decide)
  obtain ⟨hmem, -⟩ := h
  obtain ⟨⟨r, hr, hc⟩, -⟩ := hmem (by decide)
  exact ⟨r, hr, hc⟩

/-- C10: For every subcommand that requires a task identifier, an argument
record with id 0 is rejected by the dispatcher-level truthiness check with
the generic id-required ValidationError (0 is treated as an absent
identifier, not an out-of-range one), before any per-subcommand
validation, and no task operation is issued. -/
theorem task_id_zero_rejected (args : TasksToolArgs) (env : TasksToolEnv)
    (hsub : args.subcommand ∈ subcommandsRequiringId) (hid : args.id = some 0) :
    tasksToolModel args env =
      ([], Except.error
        { code := ErrorCode.validationError
          message := taskIdRequirementMsg args.subcommand }) := by
  have hnt : numTruthy args.id = false := by rw [hid]; rfl
  simp [tasksToolModel, validateTaskIdRequirement, hsub, hnt]

/-- Witness for C10 at the update subcommand with id 0. -/
theorem task_id_zero_rejected_witness :
    ({ subcommand := "update", id := some 0 } : TasksToolArgs).subcommand ∈ subcommandsRequiringId ∧
    tasksToolModel { subcommand := "update", id := some 0 } {} =
      ([], Except.error
        { code := ErrorCode.validationError, message := taskIdRequirementMsg "update" }) :=
  ⟨by decide, task_id_zero_rejected { subcommand := "update", id := some 0 } {} (by decide) rfl⟩

/-- Every successful filtered listing carries one of the three
evaluation-path metadata values. -/
theorem executeTaskFiltering_metadata (f : String) (fid : Option String) (env : FilterEnv) :
    ∀ r, (executeTaskFiltering { filter := some f, filterId := fid } env).2 = Except.ok r →
      r.metadata = ⟨true, true⟩ ∨ r.metadata = ⟨false, true⟩ ∨ r.metadata = ⟨false, false⟩ := by
  intro r hr
  by_cases hki : env.knownIncompatibility = true
  · cases hfetch : env.unfilteredFetch with
    | ok ts =>
      simp [executeTaskFiltering, hki, hfetch] at hr
      subst hr
      simp
    | error m =>
      simp [executeTaskFiltering, hki, hfetch] at hr
  · cases hso : env.serverOutcome with
    | accepted ts =>
      simp [executeTaskFiltering, hki, hso] at hr
      subst hr
      simp
    | rejectedUnsupported m =>
      cases hfetch : env.unfilteredFetch with
      | ok ts =>
        simp [executeTaskFiltering, hki, hso, hfetch] at hr
        subst hr
        simp
      | error m' =>
        simp [executeTaskFiltering, hki, hso, hfetch] at hr
    | failedUnrelated m =>
      simp [executeTaskFiltering, hki, hso] at hr

/-- C4: For every listing request with a filter expression the metadata of
a successful result takes exactly one of three values — server-side,
attempted-server-side-with-client-fallback, pure client-side — and the
three values render as pairwise distinct messages; a filter the remote
service rejects as unsupported yields a successful result tagged as
client-side fallback when the unfiltered fetch succeeds, while the
server-accepted and known-incompatibility paths carry the other two tags. -/
theorem filtering_metadata_three_outcomes (args : TaskListingArgs) (env : FilterEnv)
    (f : String) (hf : args.filter = some f) :
    (∀ r, (listTasksModel args env).2 = Except.ok r →
      (r.2.1 = ⟨true, true⟩ ∨ r.2.1 = ⟨false, true⟩ ∨ r.2.1 = ⟨false, false⟩)) ∧
    (filteringMessage true ⟨true, true⟩ ≠ filteringMessage true ⟨false, true⟩ ∧
     filteringMessage true ⟨true, true⟩ ≠ filteringMessage true ⟨false, false⟩ ∧
     filteringMessage true ⟨false, true⟩ ≠ filteringMessage true ⟨false, false⟩) ∧
    (∀ m ts, env.knownIncompatibility = false →
       env.serverOutcome = ServerFilterOutcome.rejectedUnsupported m →
       env.unfilteredFetch = Except.ok ts →
       (listTasksModel args env).2 = Except.ok
         (ts.filter env.localPred, ⟨false, true⟩,
          "Found " ++ toString (ts.filter env.localPred).length
            ++ " tasks (filtered client-side - server-side fallback)")) ∧
    (∀ ts, env.knownIncompatibility = false →
       env.serverOutcome = ServerFilterOutcome.accepted ts →
       (listTasksModel args env).2 = Except.ok
         (ts, ⟨true, true⟩,
          "Found " ++ toString ts.length ++ " tasks (filtered server-side)")) ∧
    (∀ ts, env.knownIncompatibility = true → env.unfilteredFetch = Except.ok ts →
       (listTasksModel args env).2 = Except.ok
         (ts.filter env.localPred, ⟨false, false⟩,
          "Found " ++ toString (ts.filter env.localPred).length
            ++ " tasks (filtered client-side)")) := by
  obtain ⟨filt, fid⟩ := args
  simp only [TaskListingArgs.filter] at hf
  subst hf
  refine ⟨?_, ⟨by decide, by decide, by decide⟩, ?_, ?_, ?_⟩
  · intro r hr
    unfold listTasksModel at hr
    cases hex : (executeTaskFiltering { filter := some f, filterId := fid } env) with
    | mk c res =>
      cases res with
      | error e => rw [hex] at hr; cases hr
      | ok r0 =>
        rw [hex] at hr
        simp only [Except.ok.injEq] at hr
        have hmd := executeTaskFiltering_metadata f fid env r0 (by rw [hex])
        rw [← hr]
        simpa using hmd
  · intro m ts hki hso hfetch
    simp [listTasksModel, executeTaskFiltering, hki, hso, hfetch, filteringMessage,
      String.append_assoc]
  · intro ts hki hso
    simp [listTasksModel, executeTaskFiltering, hki, hso, filteringMessage,
      String.append_assoc]
  · intro ts hki hfetch
    simp [listTasksModel, executeTaskFiltering, hki, hfetch, filteringMessage,
      String.append_assoc]

/-- Witness for C4: a rejected filter expression with a successful
unfiltered fetch yields a success tagged as client-side fallback. -/
theorem filtering_metadata_three_outcomes_witness :
    ∃ r, (listTasksModel { filter := some "priority > 3" }
        { serverOutcome := ServerFilterOutcome.rejectedUnsupported "unsupported filter syntax"
          unfilteredFetch := Except.ok [{ id := some 1 }] }).2 = Except.ok r ∧
      r.2.1 = ⟨false, true⟩ := by
  have h := filtering_metadata_three_outcomes { filter := some "priority > 3" }
    { serverOutcome := ServerFilterOutcome.rejectedUnsupported "unsupported filter syntax"
      unfilteredFetch := Except.ok [{ id := some 1 }] } "priority > 3" rfl
  obtain ⟨-, -, h3, -⟩ := h
  exact ⟨_, h3 "unsupported filter syntax" [{ id := some 1 }] rfl rfl rfl, rfl⟩

end Vikunja
